import Mathlib

/-!
Verification of `generate_gallery.py`: a single-pass converter that reads a
JSON mapping of category names to lists of item records and renders a static
HTML gallery page.  The Python functions `extract_first_100_items`,
`generate_image_url`, `generate_html` and `main` are embedded shallowly below;
machine-checked theorems about these embeddings settle the specification
claims.
-/

namespace GenerateGallery

/-- Values produced by Python's `json.load`: null, booleans, numbers, strings,
arrays and objects.  Objects are association lists in document order, which is
also the iteration order of the resulting Python `dict` (insertion order);
`json.load` leaves at most one binding per key.  Numbers are modelled as
integers; no claim inspects a numeric payload. -/
inductive Json where
  | null
  | bool (b : Bool)
  | num (n : Int)
  | str (s : String)
  | arr (elems : List Json)
  | obj (fields : List (String × Json))
deriving Repr

/-- Python `dict` subscript access `d[key]` on a parsed-JSON object:
`some v` when the key is present, `none` when the access raises `KeyError`. -/
def jsonLookup : List (String × Json) → String → Option Json
  | [], _ => none
  | (k, v) :: rest, key => if k = key then some v else jsonLookup rest key

/-- One record appended by the extractor loop:
`{'name': item['name'], 'filename': item['filename'], 'category': category}`.
The `name` and `filename` payloads are whatever JSON values the element
carried; the category is the top-level key the element was found under. -/
structure RawItem where
  name : Json
  filename : Json
  category : String
deriving Repr

/-- The body of the inner extractor loop for one list element: reads
`item['name']` and `item['filename']` and builds the record.  Returns `none`
when Python would raise — `KeyError` for a missing key, `TypeError` when the
element is not a dict (subscripting a list, string, number, boolean or `None`
with a string key raises). -/
def parseRecord (category : String) (item : Json) : Option RawItem :=
  match item with
  | .obj fields =>
      match jsonLookup fields "name", jsonLookup fields "filename" with
      | some n, some f => some { name := n, filename := f, category := category }
      | _, _ => none
  | _ => none

/-- The inner loop `for item in items: all_items.append({...})` over one
category's list: builds the records in list order, and returns `none` as soon
as one element raises (the exception unwinds past the loop, so the records
built before the failure never reach the caller). -/
def parseAll (category : String) : List Json → Option (List RawItem)
  | [] => some []
  | item :: rest =>
      match parseRecord category item, parseAll category rest with
      | some r, some rs => some (r :: rs)
      | _, _ => none

/-- The extractor's outer loop over `data.items()`: keys whose value passes
`isinstance(items, list)` contribute one record per element in encounter
order, all other keys are skipped; `none` models an exception escaping the
loop (a single bad element aborts the whole traversal, discarding every
record accumulated so far). -/
def extractItems : List (String × Json) → Option (List RawItem)
  | [] => some []
  | (category, v) :: rest =>
      match v with
      | .arr elems =>
          match parseAll category elems, extractItems rest with
          | some records, some more => some (records ++ more)
          | _, _ => none
      | _ => extractItems rest

/-- The Python function `extract_first_100_items`, with the file system
abstracted: the argument is `some data` when opening, reading and
`json.load`-parsing the input file succeeds with document `data`, and `none`
when any of those steps raises.  The result pairs the returned list with a
flag recording whether the `except` handler ran (printing `错误: ...`).
`data.items()` raises `AttributeError` unless the document is an object, and
any exception inside the loop is caught by the same broad handler; in every
such case the function prints the diagnostic and returns the empty list. -/
def extract_first_100_items_full (input : Option Json) : List RawItem × Bool :=
  match input with
  | some (.obj fields) =>
      match extractItems fields with
      | some records => (records, false)
      | none => ([], true)
  | _ => ([], true)

/-- The list returned by `extract_first_100_items` (despite its name it
applies no cap; see the claims about truncation). -/
def extract_first_100_items (input : Option Json) : List RawItem :=
  (extract_first_100_items_full input).1

/-- The number of records contributed by one top-level binding: the length of
its value when that value is a list, and zero otherwise. -/
def listContribution (v : Json) : Nat :=
  match v with
  | .arr elems => elems.length
  | _ => 0

/-- Sum, over all top-level keys whose value is a list, of that list's
length. -/
def totalListElements (fields : List (String × Json)) : Nat :=
  (fields.map fun p => listContribution p.2).sum

/-- The `isinstance(items, list)` test applied by the extractor to each
top-level value. -/
def isList : Json → Bool
  | .arr _ => true
  | _ => false

/-- The records one top-level binding contributes, in the order of its list
(written from the spec's order description, for comparison with the
extractor): a list value yields one record per element in list order, any
other value yields nothing. -/
def categoryRecords (category : String) (v : Json) : List RawItem :=
  match v with
  | .arr elems => elems.filterMap (parseRecord category)
  | _ => []

/-- The encounter-order specification of the extractor's output (written from
the spec's words): categories in mapping iteration order, and within each
category the list's own order. -/
def encounterOrder : List (String × Json) → List RawItem
  | [] => []
  | p :: rest => categoryRecords p.1 p.2 ++ encounterOrder rest

/-- Concrete document pieces reused by several witnesses, taken from the
spec's worked example. -/
def appleJson : Json := .obj [("name", .str "Apple"), ("filename", .str "apple.jpg")]

def carrotJson : Json := .obj [("name", .str "Carrot"), ("filename", .str "carrot.jpg")]

def exampleFields : List (String × Json) :=
  [("fruit", .arr [appleJson]), ("veg", .arr [carrotJson])]

def appleItem : RawItem :=
  { name := .str "Apple", filename := .str "apple.jpg", category := "fruit" }

def carrotItem : RawItem :=
  { name := .str "Carrot", filename := .str "carrot.jpg", category := "veg" }

/-- A document with a single category holding 101 well-formed elements, used
to exercise the absence of the "first 100" cap. -/
def bigFields : List (String × Json) :=
  [("produce", .arr (List.replicate 101 appleJson))]

/-- The record each of the 101 elements of `bigFields` flattens to. -/
def bigItem : RawItem :=
  { name := .str "Apple", filename := .str "apple.jpg", category := "produce" }

/-- An item as the renderer consumes it.  `generate_html` is fed the
dictionaries built by the extractor; the spec's data model fixes `name`,
`filename` and `category` as strings, and Python's f-string interpolation of
a `str` value inserts it verbatim, so the renderer is embedded over
string-valued records. -/
structure Item where
  name : String
  filename : String
  category : String
deriving Repr

/-- The Python function `generate_image_url`: fixed remote base path, the
filename verbatim (no escaping), then the fixed resize query suffix. -/
def generate_image_url (filename : String) : String :=
  "https://rtaicookbook.oss-cn-hongkong.aliyuncs.com/generated_images/"
    ++ filename ++ "?x-oss-process=image/resize,w_240"

/-- Display of the per-card staggered delay, the f-string piece
`animation-delay: {i * 0.05}s`.  Python formats the IEEE-754 double
`i * 0.05` with `repr`; this embedding abstracts that display as the decimal
rendering of `i * 5` hundredths (identical for small `i`; for indices where
the binary product is not exact, e.g. `i = 3`, Python prints extra digits
such as `0.15000000000000002`).  Every claim under verification depends only
on this being a fixed function of `i`, not on its exact digits. -/
def animationDelay (i : Nat) : String :=
  let hundredths := i * 5
  let whole := hundredths / 100
  let frac := hundredths % 100
  if frac = 0 then toString whole ++ ".0"
  else if frac % 10 = 0 then toString whole ++ "." ++ toString (frac / 10)
  else if frac < 10 then toString whole ++ ".0" ++ toString frac
  else toString whole ++ "." ++ toString frac

/-- The head of the rendered document, from the f-string template: everything
before the interpolated `{total_count}`.  Literal braces from the template's
doubled braces. -/
def htmlPrefix1 : String := "<!DOCTYPE html>
<html lang=\"zh-CN\">
<head>
    <meta charset=\"UTF-8\">
    <meta name=\"viewport\" content=\"width=device-width, initial-scale=1.0\">
    <title>食材图片画廊 - 完整收录</title>
    <style>
        * \x7b
            margin: 0;
            padding: 0;
            box-sizing: border-box;
        \x7d
       \x20
        body \x7b
            font-family: -apple-system, BlinkMacSystemFont, 'Segoe UI', Roboto, sans-serif;
            background-color: #f8f9fa;
            padding: 20px;
            line-height: 1.6;
        \x7d
       \x20
        .header \x7b
            text-align: center;
            margin-bottom: 40px;
        \x7d
       \x20
        .header h1 \x7b
            color: #2c3e50;
            font-size: 2.5rem;
            margin-bottom: 10px;
        \x7d
       \x20
        .header p \x7b
            color: #7f8c8d;
            font-size: 1.1rem;
        \x7d
       \x20
        .gallery \x7b
            display: grid;
            grid-template-columns: repeat(4, 1fr);
            gap: 20px;
            max-width: 1200px;
            margin: 0 auto;
        \x7d
       \x20
        .item \x7b
            background: white;
            border-radius: 12px;
            padding: 15px;
            box-shadow: 0 2px 10px rgba(0, 0, 0, 0.1);
            transition: transform 0.3s ease, box-shadow 0.3s ease;
            text-align: center;
        \x7d
       \x20
        .item:hover \x7b
            transform: translateY(-5px);
            box-shadow: 0 8px 25px rgba(0, 0, 0, 0.15);
        \x7d
       \x20
        .item img \x7b
            width: 100%;
            height: 200px;
            object-fit: cover;
            border-radius: 8px;
            margin-bottom: 10px;
            background-color: #f1f2f6;
        \x7d
       \x20
        .item-name \x7b
            font-weight: 600;
            color: #2c3e50;
            font-size: 0.9rem;
            margin-bottom: 5px;
            text-transform: capitalize;
        \x7d
       \x20
        .item-category \x7b
            color: #7f8c8d;
            font-size: 0.8rem;
            background-color: #ecf0f1;
            padding: 3px 8px;
            border-radius: 12px;
            display: inline-block;
        \x7d
       \x20
        .stats \x7b
            text-align: center;
            margin-bottom: 30px;
            color: #7f8c8d;
        \x7d
       \x20
        /* 响应式设计 */
        @media (max-width: 1024px) \x7b
            .gallery \x7b
                grid-template-columns: repeat(3, 1fr);
            \x7d
        \x7d
       \x20
        @media (max-width: 768px) \x7b
            .gallery \x7b
                grid-template-columns: repeat(2, 1fr);
                gap: 15px;
            \x7d
           \x20
            .header h1 \x7b
                font-size: 2rem;
            \x7d
        \x7d
       \x20
        @media (max-width: 480px) \x7b
            .gallery \x7b
                grid-template-columns: 1fr;
            \x7d
           \x20
            body \x7b
                padding: 15px;
            \x7d
        \x7d
       \x20
        /* 加载动画 */
        .item img \x7b
            opacity: 0;
            animation: fadeIn 0.5s ease forwards;
        \x7d
       \x20
        @keyframes fadeIn \x7b
            to \x7b
                opacity: 1;
            \x7d
        \x7d
       \x20
        /* 错误处理 */
        .item img[src=\"\"], .item img:not([src]) \x7b
            background-color: #ecf0f1;
            background-image: url(\"data:image/svg+xml,%3Csvg xmlns='http://www.w3.org/2000/svg' width='100' height='100' viewBox='0 0 100 100'%3E%3Ctext x='50' y='50' font-family='Arial' font-size='12' fill='%23bdc3c7' text-anchor='middle' dy='.3em'%3E图片加载中...%3C/text%3E%3C/svg%3E\");
            background-repeat: no-repeat;
            background-position: center;
        \x7d
    </style>
</head>
<body>
    <div class=\"header\">
        <h1>🍽️ 食材图片画廊</h1>
        <p>完整收录所有高质量食材图片</p>
    </div>
   \x20
    <div class=\"stats\">
        <p>共展示 <strong>"

/-- The rest of the document head after the interpolated total count, up to
and including the opening of the gallery grid. -/
def htmlPrefix2 : String := "</strong> 个食材</p>
    </div>
   \x20
    <div class=\"gallery\">
"

/-- Card template piece before the interpolated animation delay. -/
def cardFrag1 : String := "        <div class=\"item\" style=\"animation-delay: "

/-- Card template piece between the delay and the interpolated image URL. -/
def cardFrag2 : String := "s;\">
            <img src=\""

/-- Card template piece between the image URL and the interpolated alt
name. -/
def cardFrag3 : String := "\" alt=\""

/-- Card template piece between the alt name and the visible name: closes the
`img` tag (with its inline onerror fallback) and opens the name div.  The
second line of the template ends with a trailing space after `loading=\"lazy\"`,
kept verbatim. -/
def cardFrag4 : String := "\" loading=\"lazy\"\x20
                 onerror=\"this.style.backgroundImage='url(data:image/svg+xml,%3Csvg xmlns=\\'http://www.w3.org/2000/svg\\' width=\\'100\\' height=\\'100\\' viewBox=\\'0 0 100 100\\'%3E%3Ctext x=\\'50\\' y=\\'50\\' font-family=\\'Arial\\' font-size=\\'12\\' fill=\\'%23e74c3c\\' text-anchor=\\'middle\\' dy=\\'.3em\\'%3E加载失败%3C/text%3E%3C/svg%3E)'; this.style.backgroundColor='#fadbd8';\">
            <div class=\"item-name\">"

/-- Card template piece between the visible name and the category label. -/
def cardFrag5 : String := "</div>
            <div class=\"item-category\">"

/-- Card template piece closing the card. -/
def cardFrag6 : String := "</div>
        </div>
"

/-- One gallery card: the f-string appended per loop iteration, with the
delay, the image URL, the alt text, the visible name and the category label
interpolated. -/
def card (i : Nat) (item : Item) : String :=
  cardFrag1 ++ animationDelay i ++ cardFrag2 ++ generate_image_url item.filename
    ++ cardFrag3 ++ item.name ++ cardFrag4 ++ item.name ++ cardFrag5
    ++ item.category ++ cardFrag6

/-- Trailing block of the document before the spot where `{len(items)}` sits
in the source.  In the Python source this whole tail is appended as a plain
(non-f) string literal, so nothing in it is interpolated. -/
def scriptTail1 : String := "    </div>
   \x20
    <script>
        // 图片懒加载优化
        if ('IntersectionObserver' in window) \x7b
            const imageObserver = new IntersectionObserver((entries, observer) => \x7b
                entries.forEach(entry => \x7b
                    if (entry.isIntersecting) \x7b
                        const img = entry.target;
                        img.src = img.dataset.src || img.src;
                        img.classList.remove('lazy');
                        imageObserver.unobserve(img);
                    \x7d
                \x7d);
            \x7d);
           \x20
            document.querySelectorAll('img[loading=\"lazy\"]').forEach(img => \x7b
                imageObserver.observe(img);
            \x7d);
        \x7d
       \x20
        // 添加点击放大功能
        document.querySelectorAll('.item img').forEach(img => \x7b
            img.addEventListener('click', function() \x7b
                const modal = document.createElement('div');
                modal.style.cssText = `
                    position: fixed;
                    top: 0;
                    left: 0;
                    width: 100%;
                    height: 100%;
                    background: rgba(0,0,0,0.8);
                    display: flex;
                    justify-content: center;
                    align-items: center;
                    z-index: 1000;
                    cursor: pointer;
                `;
               \x20
                const modalImg = document.createElement('img');
                modalImg.src = this.src.replace('w_240', 'w_800');
                modalImg.style.cssText = `
                    max-width: 90%;
                    max-height: 90%;
                    border-radius: 8px;
                    box-shadow: 0 4px 20px rgba(0,0,0,0.3);
                `;
               \x20
                modal.appendChild(modalImg);
                document.body.appendChild(modal);
               \x20
                modal.addEventListener('click', () => \x7b
                    document.body.removeChild(modal);
                \x7d);
            \x7d);
        \x7d);
       \x20
        console.log('食材图片画廊加载完成！共展示 "

/-- Trailing block of the document after the `{len(items)}` spot. -/
def scriptTail2 : String := " 个食材');
    </script>
</body>
</html>"

/-- The whole plain-string tail appended after the card loop.  Because the
source appends it as a non-f string, the characters `\x7blen(items)\x7d` appear
literally in every rendered document; the fragment is kept separate here so
that fact can be stated. -/
def scriptTail : String := scriptTail1 ++ "\x7blen(items)\x7d" ++ scriptTail2

/-- Concatenation of a list of strings in order (the effect of the repeated
`html_content +=` of the card loop, isolated from its initial segment). -/
def concatAll : List String → String
  | [] => ""
  | s :: rest => s ++ concatAll rest

/-- The cards appended by the loop `for i, item in enumerate(items)`, one per
item, in list order. -/
def cards (items : List Item) : List String :=
  items.enum.map fun p => card p.1 p.2

/-- The Python function `generate_html`, restricted to the document string it
assembles (`html_content`): the head with the interpolated total count, then
one card appended per `enumerate(items)` iteration, then the plain tail. -/
def generate_html (items : List Item) : String :=
  let total_count := items.length
  (items.enum.foldl (fun acc p => acc ++ card p.1 p.2)
    (htmlPrefix1 ++ toString total_count ++ htmlPrefix2)) ++ scriptTail

/-- File-system abstraction for the write at the end of `generate_html` and
for `main`: a map from paths to contents. -/
abbrev FileContents := String → Option String

/-- `open(path, "w")` followed by a full write: the target path now holds
exactly the new content, every other path is untouched. -/
def writeFile (fs : FileContents) (path content : String) : FileContents :=
  fun p => if p = path then some content else fs p

/-- A full run of `generate_html`: assemble the document for `items` and
overwrite `output_file` with it, starting from file-system state `fs`. -/
def generate_html_run (fs : FileContents) (items : List Item)
    (output_file : String) : FileContents :=
  writeFile fs output_file (generate_html items)

/-- The two ways `main` can end, decided by the truthiness test `if items:`
on the extracted list. -/
inductive MainOutcome where
  /-- The extracted list was empty: `main` prints the failure message
  `❌ 提取食材失败` and returns without calling `generate_html`, so no output
  file is written. -/
  | failed
  /-- The extracted list was non-empty: `main` calls `generate_html` on it,
  which writes the output file. -/
  | rendered (items : List RawItem)

/-- The branch `main` takes after extraction, as a function of the (abstracted)
input-file read result. -/
def main_outcome (input : Option Json) : MainOutcome :=
  let items := extract_first_100_items input
  if items.isEmpty then .failed else .rendered items

/-- A concrete renderer-level item used by witnesses. -/
def appleDisplay : Item := { name := "Apple", filename := "apple.jpg", category := "fruit" }

theorem parseAll_length (category : String) (elems : List Json)
    (records : List RawItem) (h : parseAll category elems = some records) :
    records.length = elems.length := by
  induction elems generalizing records with
  | nil =>
      simp [parseAll] at h
      simp [← h]
  | cons item rest ih =>
      simp only [parseAll] at h
      match hp : parseRecord category item, hr : parseAll category rest with
      | some r, some rs =>
          rw [hp, hr] at h
          simp only [Option.some.injEq] at h
          simp [← h, ih rs hr]
      | some _, none => rw [hp, hr] at h; exact absurd h (by simp)
      | none, _ => rw [hp] at h; exact absurd h (by simp)

theorem extractItems_length (fields : List (String × Json))
    (records : List RawItem) (h : extractItems fields = some records) :
    records.length = totalListElements fields := by
  induction fields generalizing records with
  | nil =>
      simp [extractItems] at h
      simp [← h, totalListElements]
  | cons hd tl ih =>
      obtain ⟨category, v⟩ := hd
      match v with
      | .null | .bool _ | .num _ | .str _ | .obj _ =>
          simp only [extractItems] at h
          simpa [totalListElements, listContribution] using ih records h
      | .arr elems =>
          simp only [extractItems] at h
          match hm : parseAll category elems, hr : extractItems tl with
          | some rs, some more =>
              rw [hm, hr] at h
              simp only [Option.some.injEq] at h
              simp [← h, totalListElements, listContribution,
                parseAll_length category elems rs hm]
              simpa [totalListElements] using ih more hr
          | some _, none => rw [hm, hr] at h; exact absurd h (by simp)
          | none, _ => rw [hm] at h; exact absurd h (by simp)

theorem parseAll_eq_filterMap (category : String) (elems : List Json)
    (records : List RawItem) (h : parseAll category elems = some records) :
    records = elems.filterMap (parseRecord category) := by
  induction elems generalizing records with
  | nil =>
      simp [parseAll] at h
      simp [← h]
  | cons item rest ih =>
      simp only [parseAll] at h
      match hp : parseRecord category item, hr : parseAll category rest with
      | some r, some rs =>
          rw [hp, hr] at h
          simp only [Option.some.injEq] at h
          simp [← h, List.filterMap_cons, hp, ih rs hr]
      | some _, none => rw [hp, hr] at h; exact absurd h (by simp)
      | none, _ => rw [hp] at h; exact absurd h (by simp)

theorem extractItems_eq_encounterOrder (fields : List (String × Json))
    (records : List RawItem) (h : extractItems fields = some records) :
    records = encounterOrder fields := by
  induction fields generalizing records with
  | nil =>
      simp [extractItems] at h
      simp [← h, encounterOrder]
  | cons hd tl ih =>
      obtain ⟨category, v⟩ := hd
      match v with
      | .null | .bool _ | .num _ | .str _ | .obj _ =>
          simp only [extractItems] at h
          simp [encounterOrder, categoryRecords, ih records h]
      | .arr elems =>
          simp only [extractItems] at h
          match hm : parseAll category elems, hr : extractItems tl with
          | some rs, some more =>
              rw [hm, hr] at h
              simp only [Option.some.injEq] at h
              simp [← h, encounterOrder, categoryRecords,
                parseAll_eq_filterMap category elems rs hm, ih more hr]
          | some _, none => rw [hm, hr] at h; exact absurd h (by simp)
          | none, _ => rw [hm] at h; exact absurd h (by simp)

theorem parseAll_none_of_mem (category : String) (elems : List Json)
    (item : Json) (hmem : item ∈ elems)
    (hbad : parseRecord category item = none) :
    parseAll category elems = none := by
  induction elems with
  | nil => cases hmem
  | cons hd tl ih =>
      rcases List.mem_cons.mp hmem with h | h
      · rw [← h]
        simp [parseAll, hbad]
      · cases hp : parseRecord category hd <;> simp [parseAll, hp, ih h]

theorem extractItems_none_of_badkey (fields : List (String × Json))
    (category : String) (elems : List Json)
    (hmem : (category, Json.arr elems) ∈ fields)
    (hbad : parseAll category elems = none) :
    extractItems fields = none := by
  induction fields with
  | nil => cases hmem
  | cons hd tl ih =>
      rcases List.mem_cons.mp hmem with h | h
      · rw [← h]
        simp [extractItems, hbad]
      · obtain ⟨c, v⟩ := hd
        match v with
        | .null | .bool _ | .num _ | .str _ | .obj _ =>
            simp [extractItems, ih h]
        | .arr es =>
            cases hp : parseAll c es <;> simp [extractItems, hp, ih h]

theorem parseAll_replicate (category : String) (item : Json) (r : RawItem)
    (h : parseRecord category item = some r) :
    ∀ n, parseAll category (List.replicate n item) = some (List.replicate n r) := by
  intro n
  induction n with
  | zero => simp [parseAll]
  | succ n ih => simp [List.replicate_succ, parseAll, h, ih]

theorem extractItems_skip (pre post : List (String × Json)) (key : String)
    (v : Json) (hv : isList v = false) :
    extractItems (pre ++ (key, v) :: post) = extractItems (pre ++ post) := by
  induction pre with
  | nil =>
      match v with
      | .arr _ => simp [isList] at hv
      | .null | .bool _ | .num _ | .str _ | .obj _ => simp [extractItems]
  | cons hd tl ih =>
      obtain ⟨c, w⟩ := hd
      match w with
      | .null | .bool _ | .num _ | .str _ | .obj _ =>
          simpa [extractItems] using ih
      | .arr es =>
          simp only [List.cons_append, extractItems]
          rw [show tl.append ((key, v) :: post) = tl ++ (key, v) :: post from rfl,
            show tl.append post = tl ++ post from rfl, ih]

theorem extractItems_single_arr (category : String) (elems : List Json)
    (records : List RawItem) (h : parseAll category elems = some records) :
    extractItems [(category, Json.arr elems)] = some records := by
  simp [extractItems, h]

theorem foldl_append_eq_concatAll (l : List (Nat × Item)) (init : String) :
    l.foldl (fun acc p => acc ++ card p.1 p.2) init
      = init ++ concatAll (l.map fun p => card p.1 p.2) := by
  induction l generalizing init with
  | nil => simp [concatAll]
  | cons hd tl ih => simp [concatAll, ih, String.append_assoc]

/-- C1: for every input mapping that parses successfully (the document is an
object and the record traversal raises no exception), the extractor returns
the full accumulated record list, whose length is the sum, over all top-level
keys whose value is a list, of that list's length — no filtering,
deduplication or capping. -/
theorem extract_count_eq_total_list_elements (fields : List (String × Json))
    (records : List RawItem) (h : extractItems fields = some records) :
    extract_first_100_items (some (.obj fields)) = records ∧
    (extract_first_100_items (some (.obj fields))).length
      = totalListElements fields := by
  have hfull : extract_first_100_items (some (.obj fields)) = records := by
    simp [extract_first_100_items, extract_first_100_items_full, h]
  exact ⟨hfull, by rw [hfull]; exact extractItems_length fields records h⟩

theorem extract_count_eq_total_list_elements_witness :
    (extract_first_100_items (some (.obj exampleFields))).length
      = totalListElements exampleFields :=
  (extract_count_eq_total_list_elements exampleFields [appleItem, carrotItem] (by rfl)).2

/-- C2: despite the function name `extract_first_100_items`, no input is ever
truncated: on a successful parse the full record list is returned, and when
the total element count exceeds 100 the output still has that full length. -/
theorem extract_never_truncates (fields : List (String × Json))
    (records : List RawItem) (h : extractItems fields = some records)
    (hbig : 100 < totalListElements fields) :
    extract_first_100_items (some (.obj fields)) = records ∧
    100 < (extract_first_100_items (some (.obj fields))).length := by
  have hfull : extract_first_100_items (some (.obj fields)) = records := by
    simp [extract_first_100_items, extract_first_100_items_full, h]
  refine ⟨hfull, ?_⟩
  rw [hfull, extractItems_length fields records h]
  exact hbig

theorem extract_never_truncates_witness :
    100 < (extract_first_100_items (some (.obj bigFields))).length :=
  (extract_never_truncates bigFields (List.replicate 101 bigItem)
    (extractItems_single_arr "produce" (List.replicate 101 appleJson)
      (List.replicate 101 bigItem)
      (parseAll_replicate "produce" appleJson bigItem rfl 101))
    (by norm_num [bigFields, totalListElements, listContribution])).2

/-- C3: whenever extraction fails — the file is missing or unparsable, or a
`name`/`filename` access raises on any single element of any listed category —
the broad handler returns exactly the empty list (never a partial list of the
records built before the failure) and prints the diagnostic message. -/
theorem extraction_failure_returns_empty (input : Option Json)
    (h : input = none ∨ ∃ fields category elems item,
        input = some (.obj fields) ∧ (category, Json.arr elems) ∈ fields ∧
        item ∈ elems ∧ parseRecord category item = none) :
    extract_first_100_items_full input = ([], true) := by
  rcases h with h | ⟨fields, category, elems, item, hin, hmem, hitem, hbad⟩
  · rw [h]; rfl
  · rw [hin]
    have hnone : extractItems fields = none :=
      extractItems_none_of_badkey fields category elems hmem
        (parseAll_none_of_mem category elems item hitem hbad)
    simp [extract_first_100_items_full, hnone]

theorem extraction_failure_returns_empty_witness :
    extract_first_100_items_full none = ([], true) :=
  extraction_failure_returns_empty none (Or.inl rfl)

/-- C4: the image URL for a filename is the fixed remote base path, then the
filename verbatim (no escaping or transformation), then the fixed resize
suffix. -/
theorem generate_image_url_concat (filename : String) :
    generate_image_url filename =
      "https://rtaicookbook.oss-cn-hongkong.aliyuncs.com/generated_images/"
        ++ filename ++ "?x-oss-process=image/resize,w_240" := rfl

theorem generate_image_url_concat_witness :
    generate_image_url "apple.jpg" =
      "https://rtaicookbook.oss-cn-hongkong.aliyuncs.com/generated_images/"
        ++ "apple.jpg" ++ "?x-oss-process=image/resize,w_240" :=
  generate_image_url_concat "apple.jpg"

/-- C5: the rendered document is the fixed head with the interpolated total
item count in the stats block, followed by exactly one card per item (the
card list has the same length as the item list and the document is exactly
their concatenation in order), followed by the fixed tail; the i-th card
embeds the i-th item's derived w_240 image URL as image source and its name
and category as visible text. -/
theorem generate_html_one_card_per_item (items : List Item) :
    generate_html items =
      htmlPrefix1 ++ toString items.length ++ htmlPrefix2
        ++ concatAll (cards items) ++ scriptTail ∧
    (cards items).length = items.length ∧
    ∀ i, ∀ h : i < items.length,
      (cards items)[i]? =
        some (cardFrag1 ++ animationDelay i ++ cardFrag2
          ++ generate_image_url (items.get ⟨i, h⟩).filename
          ++ cardFrag3 ++ (items.get ⟨i, h⟩).name ++ cardFrag4
          ++ (items.get ⟨i, h⟩).name ++ cardFrag5
          ++ (items.get ⟨i, h⟩).category ++ cardFrag6) := by
  refine ⟨?_, ?_, ?_⟩
  · rw [generate_html]
    simp only [cards]
    rw [foldl_append_eq_concatAll]
  · simp [cards]
  · intro i h
    simp only [cards]
    rw [List.getElem?_map, List.getElem?_enum, List.getElem?_eq_getElem h]
    simp [card, List.get_eq_getElem]

theorem generate_html_one_card_per_item_witness :
    (cards [appleDisplay])[0]? =
      some (cardFrag1 ++ animationDelay 0 ++ cardFrag2
        ++ generate_image_url "apple.jpg" ++ cardFrag3 ++ "Apple" ++ cardFrag4
        ++ "Apple" ++ cardFrag5 ++ "fruit" ++ cardFrag6) :=
  (generate_html_one_card_per_item [appleDisplay]).2.2 0 (by decide)

/-- C6: a successful extraction returns records in encounter order — top-level
keys in mapping iteration order, and within each listed category the list's
own element order — with no reordering or sorting. -/
theorem extract_preserves_encounter_order (fields : List (String × Json))
    (records : List RawItem) (h : extractItems fields = some records) :
    extract_first_100_items (some (.obj fields)) = encounterOrder fields := by
  have := extractItems_eq_encounterOrder fields records h
  simp [extract_first_100_items, extract_first_100_items_full, h, this]

theorem extract_preserves_encounter_order_witness :
    extract_first_100_items (some (.obj exampleFields)) = encounterOrder exampleFields :=
  extract_preserves_encounter_order exampleFields [appleItem, carrotItem] (by rfl)

/-- C7: a top-level key holding a non-list value contributes zero records,
leaves every other key's records unchanged, and raises no exception (the
returned list and the error flag both coincide with those for the same
document without that key). -/
theorem non_list_value_contributes_nothing (pre post : List (String × Json))
    (key : String) (v : Json) (hv : isList v = false) :
    extract_first_100_items_full (some (.obj (pre ++ (key, v) :: post)))
      = extract_first_100_items_full (some (.obj (pre ++ post))) := by
  simp [extract_first_100_items_full, extractItems_skip pre post key v hv]

theorem non_list_value_contributes_nothing_witness :
    extract_first_100_items_full (some (.obj
        ([("fruit", Json.arr [appleJson])] ++ ("note", Json.str "hello")
          :: [("veg", Json.arr [carrotJson])])))
      = extract_first_100_items_full (some (.obj
          ([("fruit", Json.arr [appleJson])] ++ [("veg", Json.arr [carrotJson])]))) :=
  non_list_value_contributes_nothing [("fruit", Json.arr [appleJson])]
    [("veg", Json.arr [carrotJson])] "note" (Json.str "hello") rfl

/-- C8: when extraction yields the empty list, the truthiness test `if items:`
in `main` fails, so the run ends with the printed failure message and
`generate_html` is never invoked — no output file is written. -/
theorem empty_extraction_skips_render (input : Option Json)
    (h : extract_first_100_items input = []) :
    main_outcome input = .failed := by
  simp [main_outcome, h]

theorem empty_extraction_skips_render_witness :
    main_outcome none = MainOutcome.failed :=
  empty_extraction_skips_render none rfl

/-- C9: rendering is deterministic — running the renderer on the same item
list and output path from any two prior file-system states leaves the output
path holding the same bytes, since the document is a function of the item
list alone (no timestamps or other run-dependent content). -/
theorem render_run_deterministic (fs₁ fs₂ : FileContents) (items : List Item)
    (output_file : String) :
    generate_html_run fs₁ items output_file output_file
      = generate_html_run fs₂ items output_file output_file := by
  simp [generate_html_run, writeFile]

theorem render_run_deterministic_witness :
    generate_html_run (fun _ => none) [appleDisplay] "ingredients_gallery.html"
        "ingredients_gallery.html"
      = generate_html_run (fun _ => some "stale") [appleDisplay]
          "ingredients_gallery.html" "ingredients_gallery.html" :=
  render_run_deterministic (fun _ => none) (fun _ => some "stale") [appleDisplay]
    "ingredients_gallery.html"

/-- C10 counterexample: the literal text `\x7blen(items)\x7d` left in the final
console.log line is twelve characters long, not eleven, as the rendering of
the empty item list shows. -/
theorem script_literal_not_eleven_chars :
    generate_html [] =
      htmlPrefix1 ++ "0" ++ htmlPrefix2 ++ scriptTail1
        ++ "\x7blen(items)\x7d" ++ scriptTail2 ∧
    ("\x7blen(items)\x7d" : String).length ≠ 11 := by
  constructor
  · rw [generate_html]
    simp [scriptTail, String.append_assoc]
    rfl
  · decide

/-- C10 (amended): for every item list, the trailing script block of the
generated HTML contains the literal twelve-character text `\x7blen(items)\x7d`
in its final console.log line, rather than the actual item count, because
that tail is appended as a plain string rather than an interpolated
template. -/
theorem script_contains_literal_len_items (items : List Item) :
    ∃ pre : String,
      generate_html items = pre ++ "\x7blen(items)\x7d" ++ scriptTail2 ∧
      ("\x7blen(items)\x7d" : String).length = 12 := by
  refine ⟨(items.enum.foldl (fun acc p => acc ++ card p.1 p.2)
    (htmlPrefix1 ++ toString items.length ++ htmlPrefix2)) ++ scriptTail1, ?_, rfl⟩
  rw [generate_html]
  simp [scriptTail, String.append_assoc]

theorem script_contains_literal_len_items_witness :
    ∃ pre : String,
      generate_html [appleDisplay] = pre ++ "\x7blen(items)\x7d" ++ scriptTail2 ∧
      ("\x7blen(items)\x7d" : String).length = 12 :=
  script_contains_literal_len_items [appleDisplay]

end GenerateGallery
